import Mathlib

/-!
Shallow embedding of the realtime-messenger backend (FastAPI + SQLAlchemy +
Redis), restricted to the data model and operations the verified claims are
about.  Each definition is translated from a named source file of the
repository; comments cite the file and line range.  Python runtime failures
(AttributeError, TypeError, ValueError, KeyError, pydantic ValidationError,
raised HTTPException) are modelled with an explicit error type, and fallible
code returns Except.  Machine timestamps are modelled as natural numbers.
-/

namespace Messenger

/-- Python runtime failures that the translated code can raise. -/
inductive PyErr
  | attributeError (name : String)
  | typeError (name : String)
  | valueError (name : String)
  | keyError
  | jwtError
  | httpException (code : Nat)
  | validationError (name : String)
  deriving Repr, DecidableEq

/-- Python attribute lookup on an object or module whose attribute names are
known: getattr succeeds exactly when the name is among them, and raises
AttributeError otherwise. -/
def pyGetAttr (attrs : List String) (name : String) : Except PyErr Unit :=
  if name ∈ attrs then Except.ok () else Except.error (PyErr.attributeError name)

/-- Python int(s) conversion: a ValueError unless the string is a non-empty
run of decimal digits (all subjects stored in tokens by this backend are
decimal user ids). -/
def pyToInt (s : String) : Except PyErr Nat :=
  let ds := s.toList
  if ds.isEmpty then Except.error (PyErr.valueError s)
  else if ds.all (fun c => c.isDigit) then
    Except.ok (ds.foldl (fun n c => n * 10 + (c.toNat - 48)) 0)
  else Except.error (PyErr.valueError s)

/-- Attribute names of the class datetime.timedelta, from the Python library
reference.  There is no utcnow on timedelta (utcnow is a classmethod of
datetime, not of timedelta). -/
def timedeltaAttrs : List String :=
  ["days", "seconds", "microseconds", "total_seconds", "min", "max", "resolution"]

/-- Attribute names of the Python uuid module, from the Python library
reference: the module defines uuid1, uuid3, uuid4 and uuid5 but no function
named uuid. -/
def uuidModuleAttrs : List String :=
  ["UUID", "SafeUUID", "getnode", "uuid1", "uuid3", "uuid4", "uuid5",
   "NAMESPACE_DNS", "NAMESPACE_URL", "NAMESPACE_OID", "NAMESPACE_X500",
   "RESERVED_NCS", "RFC_4122", "RESERVED_MICROSOFT", "RESERVED_FUTURE"]

/-- Method and instance-attribute names defined by class RedisManager in
src/backend/app/redis/manager.py (lines 13-443).  Note there is no
store_offline_message, register_user_connections, get_cached_user_profile or
add_user_to_chat among them, although other modules call those names. -/
def redisManagerAttrs : List String :=
  ["pool", "redis", "metrics", "connect",
   "add_user_session", "remove_user_connection", "is_user_online",
   "add_refresh_token", "is_refresh_token_valid", "revoke_refresh_token",
   "subscribe_to_chat", "unsubscribe_from_chat", "get_chat_subscribers",
   "publish_chat_message", "start_listening", "set_websocket_manager",
   "get_stats", "close"]

/-- Static-method names defined by class MessageService in
src/backend/app/services/message_service.py (lines 15-294).  There is no
mark_as_delivered and no mark_delivered among them. -/
def messageServiceAttrs : List String :=
  ["mark_as_read", "mark_chat_as_read", "get_message_read_status",
   "get_message_info", "create_and_distribute_message"]

/-- Mapped attribute names of the declarative model Message in
src/backend/app/models/message.py (lines 8-41): its columns and its
relationship attributes.  Note there is no delivered_at column and no
is_delete attribute (the flag column is named is_deleted). -/
def messageModelAttrs : List String :=
  ["id", "chat_id", "sender_id", "content", "read_at", "created_at",
   "is_deleted", "is_edited", "sender", "chat", "read_by_users",
   "edits_history", "deliveries"]

/-- A few public names of the module sqlalchemy.orm, from the SQLAlchemy
library reference.  The loader option is named selectinload; there is no
selectionload (the misspelling imported by
src/backend/app/services/chat_services.py line 4). -/
def sqlalchemyOrmAttrs : List String :=
  ["relationship", "Session", "sessionmaker", "selectinload", "joinedload",
   "subqueryload", "lazyload", "defer", "aliased", "declarative_base"]

/-- Python str.strip(): remove leading and trailing whitespace. -/
def pyStrip (s : String) : String :=
  String.mk
    (((s.toList.dropWhile Char.isWhitespace).reverse.dropWhile Char.isWhitespace).reverse)

/-- The SQLAlchemy declarative constructor (models/base.py is the plain
declarative Base; every model module does from app.models.base import Base):
Model(**kwargs) raises TypeError for the first keyword that is not a mapped
attribute of the class. -/
def pyConstructKwargs (classAttrs : List String) (kwargs : List String) : Except PyErr Unit :=
  match kwargs.find? (fun k => !(classAttrs.contains k)) with
  | some k => Except.error (PyErr.typeError k)
  | none => Except.ok ()

/-! ## Relational data model (src/backend/app/models) -/

/-- A row of the messages table (models/message.py lines 8-22). -/
structure MessageRow where
  id : Nat
  chat_id : Nat
  sender_id : Nat
  content : String
  read_at : Option Nat
  created_at : Nat
  is_deleted : Bool
  is_edited : Bool
  deriving Repr, DecidableEq

/-- A row of the message_reads table (models/message.py lines 44-64);
the pair (message_id, user_id) carries a unique constraint. -/
structure MessageReadRow where
  message_id : Nat
  user_id : Nat
  read_at : Nat
  deriving Repr, DecidableEq

/-- A row of the message_deliveries table (models/message.py lines 86-104);
the pair (message_id, user_id) carries a unique constraint. -/
structure MessageDeliveryRow where
  message_id : Nat
  user_id : Nat
  delivered_at : Option Nat
  deriving Repr, DecidableEq

/-- A row of the users table (models/user.py). -/
structure UserRow where
  id : Nat
  username : String
  email : String
  hashed_password : String
  is_active : Bool
  deriving Repr, DecidableEq

/-- The relational state: users, the participants association table
(user_id, chat_id) of models/participant.py, and the message tables. -/
structure DB where
  users : List UserRow
  participants : List (Nat × Nat)
  messages : List MessageRow
  message_reads : List MessageReadRow
  message_deliveries : List MessageDeliveryRow
  deriving Repr, DecidableEq

/-- Autoincrement primary key for a fresh messages row. -/
def nextMessageId (db : DB) : Nat :=
  db.messages.foldr (fun m acc => max (m.id + 1) acc) 1

/-- Autoincrement primary key for a fresh users row. -/
def nextUserId (db : DB) : Nat :=
  db.users.foldr (fun u acc => max (u.id + 1) acc) 1

/-- ChatService.is_user_in_chat (services/chat_service.py lines 41-57):
an EXISTS query on the participants table. -/
def is_user_in_chat (db : DB) (user_id chat_id : Nat) : Bool :=
  db.participants.any fun p => p.1 == user_id && p.2 == chat_id

/-- ChatService.get_chat_members (services/chat_service.py lines 17-26):
select user_id from participants where chat_id matches. -/
def get_chat_members (db : DB) (chat_id : Nat) : List Nat :=
  (db.participants.filter fun p => p.2 == chat_id).map fun p => p.1

/-! ## Token minting (src/backend/app/core/security.py) -/

/-- Configuration defaults of core/config.py. -/
def ACCESS_TOKEN_EXPIRE_MINUTES : Nat := 30

/-- Configuration defaults of core/config.py. -/
def REFRESH_TOKEN_EXPIRE_DAYS : Nat := 7

/-- jose jwt.encode, abstracted: the token text records the claims and the
expiry; its exact format is irrelevant to the claims under verification. -/
def jwtEncode (claims : List (String × String)) (exp : Nat) : String :=
  String.intercalate ";" (claims.map fun c => c.1 ++ "=" ++ c.2) ++ "#" ++ toString exp

/-- create_access_token (core/security.py lines 29-57): expiry from the
optional delta or the configured default, then jwt.encode. -/
def create_access_token (data : List (String × String)) (expires_delta : Option Nat)
    (now : Nat) : String :=
  let expire := match expires_delta with
    | some d => now + d
    | none => now + ACCESS_TOKEN_EXPIRE_MINUTES * 60
  jwtEncode (data ++ [("exp", toString expire)]) expire

/-- create_refresh_token (core/security.py lines 60-86).  Both branches of
the expiry computation (lines 67-70) begin with timedelta.utcnow(), an
attribute the timedelta class does not have, so the lookup raises before
anything is encoded. -/
def create_refresh_token (data : List (String × String)) (expires_delta : Option Nat)
    (now : Nat) : Except PyErr String := do
  let to_encode := data
  let expire ← (match expires_delta with
    | some d => do
        let _ ← pyGetAttr timedeltaAttrs "utcnow"
        Except.ok (now + d)
    | none => do
        let _ ← pyGetAttr timedeltaAttrs "utcnow"
        Except.ok (now + REFRESH_TOKEN_EXPIRE_DAYS * 86400))
  Except.ok (jwtEncode (to_encode ++ [("exp", toString expire)]) expire)

/-- Python tuple unpacking a, b = s where s is a str: succeeds only when the
string has exactly two characters (each bound to one character), otherwise
raises ValueError.  Used by routers/auth.py line 97. -/
def pyUnpack2 (s : String) : Except PyErr (String × String) :=
  match s.toList with
  | [a, b] => Except.ok (String.singleton a, String.singleton b)
  | _ => Except.error (PyErr.valueError "unpack")

/-- Password hashing (core/security.py lines 11-26), abstracted: the claims
under verification do not depend on bcrypt internals, only on verify being
the inverse check of hash. -/
def get_password_hash (password : String) : String :=
  "bcrypt$" ++ password

/-- verify_password (core/security.py lines 11-17). -/
def verify_password (plain hashed : String) : Bool :=
  get_password_hash plain == hashed

/-- Outcome of an auth endpoint: a token response, a raised HTTPException
with its status code, or an unhandled Python exception. -/
inductive LoginResult
  | response (access_token refresh_token token_type : String)
  | httpError (code : Nat)
  | pyError (e : PyErr)
  deriving Repr, DecidableEq

/-- True exactly on the successful token response. -/
def LoginResult.isTokenResponse : LoginResult → Bool
  | LoginResult.response _ _ _ => true
  | _ => false

/-- login (routers/auth.py lines 67-106).  The identifier is
form.get_identifier() = username or email (schemas/user.py); a falsy
identifier yields 400.  Line 97 unpacks refresh_token, jti =
create_refresh_token(payload), but create_refresh_token raises first. -/
def login (db : DB) (identifier password : String) (now : Nat) : LoginResult :=
  if identifier = "" then LoginResult.httpError 400
  else
    match db.users.find? (fun u => u.username == identifier || u.email == identifier) with
    | none => LoginResult.httpError 401
    | some user =>
      if !(verify_password password user.hashed_password) then LoginResult.httpError 401
      else
        let payload := [("sub", toString user.id)]
        let access_token := create_access_token payload none now
        match create_refresh_token payload none now with
        | Except.error e => LoginResult.pyError e
        | Except.ok s =>
          match pyUnpack2 s with
          | Except.error e => LoginResult.pyError e
          | Except.ok (refresh_token, _jti) =>
            LoginResult.response access_token refresh_token "bearer"

/-- register (routers/auth.py lines 17-64): reject an existing username or
email with 400, otherwise insert the user and mint both tokens;
create_refresh_token is called at line 57 and raises. -/
def register (db : DB) (username email password : String) (now : Nat) :
    DB × LoginResult :=
  match db.users.find? (fun u => u.username == username || u.email == email) with
  | some _ => (db, LoginResult.httpError 400)
  | none =>
    let new_user : UserRow :=
      { id := nextUserId db, username := username, email := email,
        hashed_password := get_password_hash password, is_active := true }
    let db1 := { db with users := new_user :: db.users }
    let payload := [("sub", toString new_user.id)]
    let access_token := create_access_token payload none now
    match create_refresh_token payload none now with
    | Except.error e => (db1, LoginResult.pyError e)
    | Except.ok refresh_token =>
      (db1, LoginResult.response access_token refresh_token "bearer")

/-! ## Connection registry (src/backend/app/websocket/manager.py, class
WebSocketManager, lines 165-489).  Sockets are identified by numbers. -/

/-- In-process registry state: active_connections maps a user id to the set
of its sockets (stored here as a list), with the reverse map and the
per-socket uuid text (lines 174-186). -/
structure WebSocketManagerState where
  active_connections : List (Nat × List Nat)
  websocket_to_user : List (Nat × Nat)
  websocket_ids : List (Nat × String)
  deriving Repr, DecidableEq

/-- The sockets registered for a user (empty when the user has none). -/
def socketsOf (st : WebSocketManagerState) (uid : Nat) : List Nat :=
  (st.active_connections.lookup uid).getD []

/-- Externally observable actions of the registry. -/
inductive WSEffect
  | accept (ws : Nat)
  | close (ws : Nat) (code : Nat)
  | redisRegister (userId : Nat) (wsId : String)
  | sendFrame (ws : Nat) (frameType : String)
  deriving Repr, DecidableEq

namespace WebSocketManager

/-- WebSocketManager.connect (websocket/manager.py lines 189-240).  Its first
statement (line 200) is ws_id = str(uuid.uuid())[:8]; the uuid module has no
attribute uuid, so the lookup raises AttributeError, and the surrounding
except block (lines 238-240) logs and re-raises.  The continuation after that
statement is kept to mirror the source body (accept, map insertion, the call
to the likewise-missing redis_manager.register_user_connections, and the
greeting frame), but it is unreachable.  The result is the final state, the
effects emitted before any exception, and the outcome. -/
def connect (st : WebSocketManagerState) (websocket userId : Nat)
    (uuidText : String) :
    WebSocketManagerState × List WSEffect × Except PyErr Unit :=
  match pyGetAttr uuidModuleAttrs "uuid" with
  | Except.error e => (st, [], Except.error e)
  | Except.ok _ =>
    let ws_id := uuidText.take 8
    let st1 := { st with websocket_ids := (websocket, ws_id) :: st.websocket_ids }
    let conns := socketsOf st1 userId
    let st2 := { st1 with
      active_connections := (userId, websocket :: conns)
        :: st1.active_connections.filter (fun p => p.1 ≠ userId),
      websocket_to_user := (websocket, userId) :: st1.websocket_to_user }
    match pyGetAttr redisManagerAttrs "register_user_connections" with
    | Except.error e => (st2, [WSEffect.accept websocket], Except.error e)
    | Except.ok _ =>
      (st2, [WSEffect.accept websocket,
             WSEffect.redisRegister userId ws_id,
             WSEffect.sendFrame websocket "connection_established"],
       Except.ok ())

/-- WebSocketManager.send_to_user (websocket/manager.py lines 367-391).  When
the user id is absent from active_connections the code only logs a warning
(line 374) and then still evaluates self.active_connections[user_id], which
raises KeyError; otherwise it sends the payload to every socket of the user
(socket writes are assumed to succeed here; the dead-socket branch is not
exercised by any claim).  The Python function has no return statement, so its
value is None, modelled by Unit. -/
def send_to_user (st : WebSocketManagerState) (user_id : Nat) :
    List Nat × Except PyErr Unit :=
  match st.active_connections.lookup user_id with
  | none => ([], Except.error PyErr.keyError)
  | some conns => (conns, Except.ok ())

end WebSocketManager

/-! ## Delivery marking (src/backend/app/services/delivery_service.py) -/

namespace DeliveryService

/-- DeliveryService.mark_delivered (services/delivery_service.py lines 12-15):
it opens a session and returns MessageService.mark_as_delivered(message_id,
db).  The class MessageService defines no attribute mark_as_delivered, so the
attribute lookup raises before any update; the recipient_id argument is not
even forwarded.  (The unreachable continuation has no source body to
translate; it is represented by an unreachable no-change result.) -/
def mark_delivered (db : DB) (message_id recipient_id : Nat) :
    Except PyErr (DB × Bool) :=
  match pyGetAttr messageServiceAttrs "mark_as_delivered" with
  | Except.error e => Except.error e
  | Except.ok _ =>
    let _ := message_id
    let _ := recipient_id
    Except.ok (db, false)

end DeliveryService

/-! ## Read marking (src/backend/app/services/message_service.py lines 20-81
and src/backend/app/services/read_service.py lines 13-53) -/

namespace MessageService

/-- MessageService.mark_as_read (services/message_service.py lines 20-81):
if a MessageRead row for the pair already exists, return False; otherwise
insert MessageRead(message_id, user_id, now) and update messages.read_at for
that message id, returning True.  No participant check and no reader-vs-
sender check is performed.  The two datetime.utcnow() calls of the source are
both modelled by the now argument. -/
def mark_as_read (db : DB) (message_id user_id now : Nat) : DB × Bool :=
  if db.message_reads.any (fun r => r.message_id == message_id && r.user_id == user_id) then
    (db, false)
  else
    ({ db with
        message_reads :=
          { message_id := message_id, user_id := user_id, read_at := now }
            :: db.message_reads,
        messages := db.messages.map fun m =>
          if m.id == message_id then { m with read_at := some now } else m },
     true)

end MessageService

namespace ReadService

/-- ReadService.mark_read (services/read_service.py lines 13-53): fetch the
message by primary key (False when absent), require the reader to be a chat
participant (False otherwise), then insert a MessageRead row; the unique
constraint on (message_id, user_id) turns a duplicate insert into an
IntegrityError that is caught and returned as False.  The row timestamp is
the column default datetime.utcnow, modelled by now. -/
def mark_read (db : DB) (message_id user_id now : Nat) : DB × Bool :=
  match db.messages.find? (fun m => m.id == message_id) with
  | none => (db, false)
  | some message =>
    if !(is_user_in_chat db user_id message.chat_id) then (db, false)
    else if db.message_reads.any
        (fun r => r.message_id == message_id && r.user_id == user_id) then
      (db, false)
    else
      ({ db with
          message_reads :=
            { message_id := message_id, user_id := user_id, read_at := now }
              :: db.message_reads },
       true)

end ReadService

/-! ## Message creation (src/backend/app/services/message_service.py
lines 245-294) -/

/-- A send_to_user fan-out performed by create_and_distribute_message. -/
inductive SendEffect
  | send_to_user (userId messageId : Nat)
  deriving Repr, DecidableEq

namespace MessageService

/-- MessageService.create_and_distribute_message (services/message_service.py
lines 245-294).  Line 256 constructs Message(chat_id=..., sender_id=...,
content=..., delivered_at=datetime.utcnow()): the Message model has no
delivered_at attribute, so the declarative constructor raises TypeError
before any row is added.  The continuation mirrors the rest of the body: the
flush, then line 267 imports ChatService from app.services.chat_services, a
module whose own line 4 is from sqlalchemy.orm import selectionload — a name
sqlalchemy.orm does not define, so even that continuation would raise — and
finally the fan-out to every chat member, the sender included, with no
MessageDelivery row ever created. -/
def create_and_distribute_message (db : DB) (chat_id sender_id : Nat)
    (content : String) (now : Nat) :
    DB × List SendEffect × Except PyErr MessageRow :=
  match pyConstructKwargs messageModelAttrs
      ["chat_id", "sender_id", "content", "delivered_at"] with
  | Except.error e => (db, [], Except.error e)
  | Except.ok _ =>
    let message : MessageRow :=
      { id := nextMessageId db, chat_id := chat_id, sender_id := sender_id,
        content := content, read_at := none, created_at := now,
        is_deleted := false, is_edited := false }
    let db1 := { db with messages := message :: db.messages }
    match pyGetAttr sqlalchemyOrmAttrs "selectionload" with
    | Except.error e => (db1, [], Except.error e)
    | Except.ok _ =>
      let members := get_chat_members db1 chat_id
      (db1, members.map (fun m => SendEffect.send_to_user m message.id),
       Except.ok message)

end MessageService

/-! ## Bearer tokens and the websocket auth gate
(src/backend/app/dependencies/auth.py lines 22-94 and
src/backend/app/routers/websocket.py lines 31-69) -/

/-- A presented bearer token: whether its signature verifies, whether it is
expired, and its claims.  jose jwt.decode checks signature and expiry and
yields the claims. -/
structure TokenT where
  sig_valid : Bool
  expired : Bool
  claims : List (String × String)
  deriving Repr, DecidableEq

/-- jose jwt.decode: JWTError on a bad signature or an expired token,
otherwise the claim set. -/
def jwtDecode (t : TokenT) : Except PyErr (List (String × String)) :=
  if t.sig_valid && !t.expired then Except.ok t.claims
  else Except.error PyErr.jwtError

/-- get_current_user (dependencies/auth.py lines 22-94): decode the token
(JWTError becomes HTTP 401), require a sub claim (else 401), consult the
profile cache — redis_manager.get_cached_user_profile does not exist on
RedisManager, but the try/except Exception at lines 56-62 swallows that, so
the code always falls through to the database — convert sub with int() (a
non-numeric sub raises ValueError at line 66, outside any handler), and look
the user up (absent user becomes 401).  The result is the (id, username,
email) profile dict. -/
def get_current_user (db : DB) (token : TokenT) :
    Except PyErr (Nat × String × String) :=
  match jwtDecode token with
  | Except.error _ => Except.error (PyErr.httpException 401)
  | Except.ok payload =>
    match payload.lookup "sub" with
    | none => Except.error (PyErr.httpException 401)
    | some sub =>
      match pyToInt sub with
      | Except.error e => Except.error e
      | Except.ok uid =>
        match db.users.find? (fun u => u.id == uid) with
        | none => Except.error (PyErr.httpException 401)
        | some u => Except.ok (u.id, u.username, u.email)

/-- Outcome of the websocket connection gate: the socket is closed with
policy code 1008 and nothing is registered, or the connection proceeds for
the authenticated user id. -/
inductive WSAuthOutcome
  | close1008
  | connected (userId : Nat)
  deriving Repr, DecidableEq

/-- websocket_endpoint, authentication prefix (routers/websocket.py lines
31-69): no token query parameter closes with 1008; any exception out of
get_current_user closes with 1008 (lines 44-51); a non-participant of the
chat closes with 1008 (lines 53-64); otherwise the connection proceeds for
the user.  No claim of the token other than sub is ever examined. -/
def websocket_endpoint_auth (db : DB) (chat_id : Nat) (token : Option TokenT) :
    WSAuthOutcome :=
  match token with
  | none => WSAuthOutcome.close1008
  | some t =>
    match get_current_user db t with
    | Except.error _ => WSAuthOutcome.close1008
    | Except.ok u =>
      if is_user_in_chat db u.1 chat_id then WSAuthOutcome.connected u.1
      else WSAuthOutcome.close1008

/-! ## The websocket receive loop (src/backend/app/routers/websocket.py
lines 80-151) -/

/-- An inbound client frame after json.loads: either malformed JSON, or an
object with a type field and a content field. -/
inductive ClientFrame
  | invalidJson
  | frame (ty : String) (content : String)
  deriving Repr, DecidableEq

/-- Frames and actions the loop emits towards the client or the rest of the
system. -/
inductive LoopEffect
  | errorFrame (msg : String)
  | localFanOut (chat_id sender_id message_id : Nat)
  | busPublish (chat_id : Nat)
  | close (code : Nat)
  deriving Repr, DecidableEq

/-- MessageResponse.model_validate on a Message ORM object
(schemas/message.py lines 19-41, with from_attributes).  The schema requires
is_delete — an attribute the Message model does not have (its column is
is_deleted) — and a non-null datetime read_at, so validation fails for every
freshly created message (and indeed for every Message object, for want of
is_delete). -/
def model_validate_MessageResponse (m : MessageRow) : Except PyErr Unit :=
  if messageModelAttrs.contains "is_delete" && m.read_at.isSome then Except.ok ()
  else Except.error (PyErr.validationError "MessageResponse")

/-- One iteration of the receive loop (routers/websocket.py lines 83-144):
malformed JSON draws an error frame; a non-message type or an empty trimmed
content is silently skipped; otherwise the message row is inserted and
committed, after which MessageResponse.model_validate raises, the except
branch (lines 136-144) sends an internal-error frame, closes the socket with
1011 and breaks the loop.  The unreachable success branch performs the
manager.send_to_other local fan-out and no bus publish.  Result: new state,
effects, and whether the loop breaks. -/
def websocket_receive_step (chat_id user_id : Nat) (db : DB) (now : Nat)
    (f : ClientFrame) : DB × List LoopEffect × Bool :=
  match f with
  | ClientFrame.invalidJson =>
    (db, [LoopEffect.errorFrame "Неверный формат. Отправьте JSON"], false)
  | ClientFrame.frame ty content =>
    if ty ≠ "message" then (db, [], false)
    else
      let c := pyStrip content
      if c = "" then (db, [], false)
      else
        let msg : MessageRow :=
          { id := nextMessageId db, chat_id := chat_id, sender_id := user_id,
            content := c, read_at := none, created_at := now,
            is_deleted := false, is_edited := false }
        let db1 := { db with messages := msg :: db.messages }
        match model_validate_MessageResponse msg with
        | Except.error _ =>
          (db1, [LoopEffect.errorFrame "Внутренняя ошибка сервера",
                 LoopEffect.close 1011], true)
        | Except.ok _ =>
          (db1, [LoopEffect.localFanOut chat_id user_id msg.id], false)

/-- The receive loop over a trace of timed inbound frames (each frame paired
with its arrival time in seconds); the loop stops when an iteration breaks. -/
def websocket_receive_loop (chat_id user_id : Nat) :
    DB → List (Nat × ClientFrame) → DB × List LoopEffect
  | db, [] => (db, [])
  | db, (t, f) :: rest =>
    let step := websocket_receive_step chat_id user_id db t f
    if step.2.2 then (step.1, step.2.1)
    else
      let r := websocket_receive_loop chat_id user_id step.1 rest
      (r.1, step.2.1 ++ r.2)

/-! ## Pub/Sub delivery (src/backend/app/redis/manager.py lines 314-364) -/

/-- Session-store state read by the pub/sub handler: the chat:subscribers
sets (iteration order of a Redis set abstracted as list order) and the set of
user ids whose user:sessions key exists (is_user_online, the cache being
transparent when coherent). -/
structure RedisState where
  chat_subscribers : List (Nat × List Nat)
  online : List Nat
  deriving Repr, DecidableEq

/-- The subscribers of a chat (empty when the set is absent). -/
def subscribersOf (rs : RedisState) (chat_id : Nat) : List Nat :=
  (rs.chat_subscribers.lookup chat_id).getD []

/-- An envelope arriving on channel chat:messages:chat_id, as parsed by the
handler: data id and sender_id (the body is irrelevant to the claims). -/
structure PubSubEvent where
  chat_id : Nat
  message_id : Nat
  sender_id : Nat
  deriving Repr, DecidableEq

/-- A socket write performed by the pub/sub fan-out. -/
inductive PubSubEffect
  | sendSocket (ws user_id message_id : Nat)
  deriving Repr, DecidableEq

namespace RedisManager

/-- The subscriber loop of _handle_pubsub_message (redis/manager.py lines
336-347): every subscriber is considered — the sender is never skipped — and
for an online subscriber send_to_user is awaited.  send_to_user either raises
KeyError (no local sockets) or returns None, and in the latter case the
accumulation total_sent += sent_count at line 347 raises TypeError (int +=
NoneType); either way the exception aborts the loop after the first online
subscriber.  Result: the socket writes performed and the outcome with the
running count. -/
def pubsubLoop (rs : RedisState) (st : WebSocketManagerState) (message_id : Nat) :
    List Nat → List PubSubEffect × Except PyErr Nat
  | [] => ([], Except.ok 0)
  | uid :: rest =>
    if rs.online.contains uid then
      match WebSocketManager.send_to_user st uid with
      | (_, Except.error e) => ([], Except.error e)
      | (conns, Except.ok _) =>
        (conns.map (fun ws => PubSubEffect.sendSocket ws uid message_id),
         Except.error (PyErr.typeError "unsupported operand"))
    else pubsubLoop rs st message_id rest

/-- _handle_pubsub_message (redis/manager.py lines 314-364): parse the
channel and payload, read the chat subscribers, return if there are none,
run the fan-out loop, and — had the loop ever completed with a positive
count — call the missing MessageService.mark_as_delivered inside the
total_sent > 0 guard.  The whole body sits in a blanket try/except, so any
exception from the loop is swallowed after the writes already performed. -/
def handle_pubsub_message (rs : RedisState) (st : WebSocketManagerState)
    (ev : PubSubEvent) : List PubSubEffect :=
  let subscribers := subscribersOf rs ev.chat_id
  if subscribers.isEmpty then []
  else
    match pubsubLoop rs st ev.message_id subscribers with
    | (effs, Except.error _) => effs
    | (effs, Except.ok total_sent) =>
      if total_sent > 0 then
        match pyGetAttr messageServiceAttrs "mark_as_delivered" with
        | _ => effs
      else effs

end RedisManager

/-! ## Offline queueing (src/backend/app/rabbit/consumers/message_created.py
lines 18-48 and the session-store offline lists) -/

/-- An event payload handled by the message.created consumer: the chat id and
sender id it reads, the rest opaque. -/
structure EventPayload where
  chat_id : Nat
  sender_id : Nat
  body : String
  deriving Repr, DecidableEq

/-- The offline queue of a user among the offline lists (empty when the key
is absent). -/
def queueOf (qs : List (Nat × List EventPayload)) (uid : Nat) : List EventPayload :=
  (qs.lookup uid).getD []

/-- Store a new value for one offline key, leaving the other keys as they
were. -/
def setQueue : List (Nat × List EventPayload) → Nat → List EventPayload →
    List (Nat × List EventPayload)
  | [], uid, q => [(uid, q)]
  | (k, w) :: rest, uid, q =>
    if k == uid then (uid, q) :: rest else (k, w) :: setQueue rest uid q

/-- Modelled from the spec: RedisManager.store_offline_message is called by
MessageCreatedConsumer.handle (rabbit/consumers/message_created.py line 45)
but no such method exists in the repository snapshot (redis/manager.py).  The
spec defines store_offline(uid, payload) as: right-push the payload onto the
offline list of the user, then trim the list to its last 300 entries. -/
def store_offline_message (queue : List EventPayload) (payload : EventPayload) :
    List EventPayload :=
  let pushed := queue ++ [payload]
  pushed.drop (pushed.length - 300)

/-- A socket write performed by the consumer fan-out. -/
inductive ConsumerEffect
  | sendSocket (ws user_id : Nat)
  deriving Repr, DecidableEq

namespace MessageCreatedConsumer

/-- The member loop of MessageCreatedConsumer.handle (message_created.py
lines 31-48): the sender is skipped; an online member receives the payload on
its local sockets via send_to_user, whose return value is discarded — but a
KeyError from an online member with no local socket propagates and aborts the
whole handler; an offline member has the payload stored to its offline queue.
Result: the offline queues, the socket writes, and the outcome. -/
def consumerLoop (online : List Nat) (st : WebSocketManagerState)
    (sender_id : Nat) (payload : EventPayload) :
    List Nat → List (Nat × List EventPayload) →
    List (Nat × List EventPayload) × List ConsumerEffect × Except PyErr Unit
  | [], qs => (qs, [], Except.ok ())
  | u :: rest, qs =>
    if u == sender_id then consumerLoop online st sender_id payload rest qs
    else if online.contains u then
      match WebSocketManager.send_to_user st u with
      | (_, Except.error e) => (qs, [], Except.error e)
      | (conns, Except.ok _) =>
        let r := consumerLoop online st sender_id payload rest qs
        (r.1, conns.map (fun ws => ConsumerEffect.sendSocket ws u) ++ r.2.1, r.2.2)
    else
      consumerLoop online st sender_id payload rest
        (setQueue qs u (store_offline_message (queueOf qs u) payload))

/-- MessageCreatedConsumer.handle (message_created.py lines 18-48): read the
chat members from the participants table, then run the member loop. -/
def handle (db : DB) (online : List Nat) (st : WebSocketManagerState)
    (qs : List (Nat × List EventPayload)) (payload : EventPayload) :
    List (Nat × List EventPayload) × List ConsumerEffect × Except PyErr Unit :=
  consumerLoop online st payload.sender_id payload
    (get_chat_members db payload.chat_id) qs

end MessageCreatedConsumer

/-! ## Concrete fixtures used by counterexamples and witnesses -/

/-- Registry state with user 1 already holding live socket 7, used to examine
the displacement claim. -/
def displacementSt : WebSocketManagerState :=
  { active_connections := [(1, [7])],
    websocket_to_user := [(7, 1)],
    websocket_ids := [(7, "aaaaaaaa")] }

/-- A two-user chat (chat 1, users 1 and 2) with one unread message sent by
user 1, used to examine the read-marking filters. -/
def readDb : DB :=
  { users :=
      [{ id := 1, username := "alice", email := "alice@x", hashed_password := "h1",
         is_active := true },
       { id := 2, username := "bob", email := "bob@x", hashed_password := "h2",
         is_active := true }],
    participants := [(1, 1), (2, 1)],
    messages :=
      [{ id := 1, chat_id := 1, sender_id := 1, content := "hi", read_at := none,
         created_at := 0, is_deleted := false, is_edited := false }],
    message_reads := [],
    message_deliveries := [] }

/-- Database with user 1 a participant of chat 10, used to examine the
websocket auth gate. -/
def wsAuthDb : DB :=
  { users :=
      [{ id := 1, username := "alice", email := "alice@x", hashed_password := "h1",
         is_active := true }],
    participants := [(1, 10)],
    messages := [], message_reads := [], message_deliveries := [] }

/-- A validly signed, unexpired token whose type claim is refresh. -/
def refreshTok : TokenT :=
  { sig_valid := true, expired := false,
    claims := [("sub", "1"), ("type", "refresh")] }

/-- C1 fixture: a two-user chat (users 1 and 2 in chat 10) with an empty
message table. -/
def rateDb : DB :=
  { users :=
      [{ id := 1, username := "alice", email := "alice@x", hashed_password := "h1",
         is_active := true },
       { id := 2, username := "bob", email := "bob@x", hashed_password := "h2",
         is_active := true }],
    participants := [(1, 10), (2, 10)],
    messages := [], message_reads := [], message_deliveries := [] }

/-- C1 fixture: six message frames from the same sender at seconds 0..5, all
inside one 10-second window. -/
def sixFrames : List (Nat × ClientFrame) :=
  [(0, ClientFrame.frame "message" "one"), (1, ClientFrame.frame "message" "two"),
   (2, ClientFrame.frame "message" "three"), (3, ClientFrame.frame "message" "four"),
   (4, ClientFrame.frame "message" "five"), (5, ClientFrame.frame "message" "six")]

/-- C5 fixture: chat 10 has subscriber set containing only user 1, who is
online. -/
def echoRs : RedisState :=
  { chat_subscribers := [(10, [1])], online := [1] }

/-- C5 fixture: user 1 holds live socket 7 on this instance. -/
def echoSt : WebSocketManagerState :=
  { active_connections := [(1, [7])], websocket_to_user := [(7, 1)],
    websocket_ids := [(7, "cccccccc")] }

/-- C5 fixture: a bus event for chat 10, message 100, sent by user 1. -/
def echoEv : PubSubEvent :=
  { chat_id := 10, message_id := 100, sender_id := 1 }

/-- C8 fixture: chat 10 whose only participant is user 1. -/
def offlineDb : DB :=
  { users := [], participants := [(1, 10)],
    messages := [], message_reads := [], message_deliveries := [] }

/-- C8 fixture: an event for chat 10 sent by user 1. -/
def offlinePayload : EventPayload :=
  { chat_id := 10, sender_id := 1, body := "m" }

/-- C8 fixture: an instance with no connected sockets. -/
def emptySt : WebSocketManagerState :=
  { active_connections := [], websocket_to_user := [], websocket_ids := [] }

/-- C8 fixture: chat 10 with members 1, 2 and 3. -/
def capDb : DB :=
  { users := [], participants := [(1, 10), (2, 10), (3, 10)],
    messages := [], message_reads := [], message_deliveries := [] }

/-- C8 fixture: user 2 holds live socket 9 on this instance. -/
def capSt : WebSocketManagerState :=
  { active_connections := [(2, [9])], websocket_to_user := [(9, 2)],
    websocket_ids := [(9, "dddddddd")] }

/-- C8 fixture: an offline queue already at the 300-entry cap. -/
def capQ : List EventPayload :=
  List.replicate 300 offlinePayload

/-! ## Theorems for the verified claims -/

/-- C9: for every registry state, socket and user, WebSocketManager.connect
raises before registering anything — the connection-id expression calls
uuid.uuid(), which does not exist in the uuid module, and the handler
re-raises — so no call to connect ever inserts into active_connections,
registers the user in Redis, or sends the greeting frame: the state is
returned unchanged, the effect list is empty and the outcome is the
AttributeError. -/
theorem c9_connect_always_raises (st : WebSocketManagerState) (ws uid : Nat)
    (uuidText : String) :
    WebSocketManager.connect st ws uid uuidText =
      (st, [], Except.error (PyErr.attributeError "uuid")) := rfl

/-- C10: for every input, create_refresh_token raises AttributeError because
its expiry computation calls timedelta.utcnow(), which does not exist; and
since login (which additionally unpacks a pair from the declared
single-string return) and register both call it, neither endpoint ever
returns a successful token response. -/
theorem c10_refresh_token_never_issued :
    (∀ (data : List (String × String)) (expires_delta : Option Nat) (now : Nat),
        create_refresh_token data expires_delta now =
          Except.error (PyErr.attributeError "utcnow")) ∧
    (∀ (db : DB) (identifier password : String) (now : Nat),
        (login db identifier password now).isTokenResponse = false) ∧
    (∀ (db : DB) (username email password : String) (now : Nat),
        ((register db username email password now).2).isTokenResponse = false) := by
  refine ⟨fun data ed now => ?_, fun db id pw now => ?_, fun db un em pw now => ?_⟩
  · cases ed <;> rfl
  · unfold login
    split
    · rfl
    · split
      · rfl
      · split <;> rfl
  · unfold register
    split <;> rfl

/-- C3: the claim describes mark_delivered(m, u) as a guarded, idempotent
per-pair update returning whether the row changed; in the code every call to
DeliveryService.mark_delivered raises AttributeError instead — it invokes
MessageService.mark_as_delivered, an attribute the MessageService class does
not define (and the recipient id is not even forwarded) — so no
MessageDelivery row is ever updated and no boolean is ever returned. -/
theorem c3_mark_delivered_raises (db : DB) (message_id recipient_id : Nat) :
    DeliveryService.mark_delivered db message_id recipient_id =
      Except.error (PyErr.attributeError "mark_as_delivered") := rfl

/-- C2: the claim (and the repository's own unit test
tests/unit/test_message_service.py) expect message creation to persist one
Message row plus one MessageDelivery row per other participant with null
delivered_at; instead every call to
MessageService.create_and_distribute_message raises TypeError, because it
passes delivered_at= to the Message constructor and the Message model has no
such attribute — so no Message row and no MessageDelivery row is ever
created and no Message is returned. -/
theorem c2_create_and_distribute_raises (db : DB) (chat_id sender_id : Nat)
    (content : String) (now : Nat) :
    MessageService.create_and_distribute_message db chat_id sender_id content now =
      (db, [], Except.error (PyErr.typeError "delivered_at")) := rfl

/-- C6 counterexample: the claim says accepting a new connection (socket 8)
for user 1, who already has live socket 7, first closes socket 7 with code
1000 and then registers socket 8, leaving exactly the new socket registered.
On the code, connect for socket 8 emits no effect at all — in particular no
close with code 1000 — and leaves the registry unchanged: socket 7 is still
the registered socket of user 1 and socket 8 was never registered. -/
theorem c6_no_displacement_counterexample :
    (WebSocketManager.connect displacementSt 8 1 "bbbbbbbb").2.1 = [] ∧
    WSEffect.close 7 1000 ∉ (WebSocketManager.connect displacementSt 8 1 "bbbbbbbb").2.1 ∧
    socketsOf (WebSocketManager.connect displacementSt 8 1 "bbbbbbbb").1 1 = [7] := by
  decide

/-- C6 amended: the registry is built for several live sockets per user
(active_connections maps a user id to a set of sockets), and a new connection
never displaces an old one: connect emits no close effect for any socket and
leaves every user's registered sockets exactly as they were (indeed it raises
before registering anything). -/
theorem c6_connect_never_displaces (st : WebSocketManagerState) (ws uid : Nat)
    (uuidText : String) :
    (∀ w code, WSEffect.close w code ∉ (WebSocketManager.connect st ws uid uuidText).2.1) ∧
    (∀ u, socketsOf (WebSocketManager.connect st ws uid uuidText).1 u = socketsOf st u) := by
  have hc : WebSocketManager.connect st ws uid uuidText =
      (st, [], Except.error (PyErr.attributeError "uuid")) := rfl
  constructor
  · intro w code h
    rw [hc] at h
    simp at h
  · intro u
    rw [hc]

/-- C4 counterexample: the claim says read marking sets read_at only where
the reader is not the sender; in the code user 1 — the sender of message 1 —
marks its own message read: MessageService.mark_as_read reports a change and
sets the read_at column of the message, and ReadService.mark_read likewise
reports a change, inserting the MessageRead row for the (message, sender)
pair. -/
theorem c4_reader_is_sender_counterexample :
    (MessageService.mark_as_read readDb 1 1 5).2 = true ∧
    (MessageService.mark_as_read readDb 1 1 5).1.messages.map MessageRow.read_at = [some 5] ∧
    (ReadService.mark_read readDb 1 1 5).2 = true ∧
    (ReadService.mark_read readDb 1 1 5).1.message_reads =
      [{ message_id := 1, user_id := 1, read_at := 5 }] := by
  decide

/-- C4 amended: the read-marking operations are per single message, not
batch, and filter neither on reader-vs-sender nor (for mark_as_read) on
participation; they return whether a row changed, not a count.
ReadService.mark_read(m, u) inserts the MessageRead row for (m, u) exactly
when message m exists, u is a participant of its chat, and no such row exists
yet, touching nothing else; and both operations are idempotent: applying
either twice leaves the state of one application, the second returning
false. -/
theorem c4_read_marking_amended (db : DB) (m u t₁ t₂ : Nat) :
    ((ReadService.mark_read db m u t₁).2 = true ↔
      ((∃ msg, db.messages.find? (fun x => x.id == m) = some msg ∧
          is_user_in_chat db u msg.chat_id = true) ∧
        db.message_reads.any (fun r => r.message_id == m && r.user_id == u) = false)) ∧
    ((ReadService.mark_read db m u t₁).1.message_reads =
      (if (ReadService.mark_read db m u t₁).2 then
        { message_id := m, user_id := u, read_at := t₁ } :: db.message_reads
       else db.message_reads)) ∧
    (ReadService.mark_read db m u t₁).1.messages = db.messages ∧
    (ReadService.mark_read db m u t₁).1.participants = db.participants ∧
    ReadService.mark_read (ReadService.mark_read db m u t₁).1 m u t₂ =
      ((ReadService.mark_read db m u t₁).1, false) ∧
    MessageService.mark_as_read (MessageService.mark_as_read db m u t₁).1 m u t₂ =
      ((MessageService.mark_as_read db m u t₁).1, false) := by
  refine ⟨?_, ?_, ?_, ?_, ?_, ?_⟩
  · cases hfind : db.messages.find? (fun x => x.id == m) with
    | none => simp [ReadService.mark_read, hfind]
    | some msg =>
      cases hmem : is_user_in_chat db u msg.chat_id with
      | false => simp [ReadService.mark_read, hfind, hmem]
      | true =>
        cases hdup : db.message_reads.any (fun r => r.message_id == m && r.user_id == u) with
        | false => simp [ReadService.mark_read, hfind, hmem, hdup]
        | true => simp [ReadService.mark_read, hfind, hmem, hdup]
  · cases hfind : db.messages.find? (fun x => x.id == m) with
    | none => simp [ReadService.mark_read, hfind]
    | some msg =>
      cases hmem : is_user_in_chat db u msg.chat_id with
      | false => simp [ReadService.mark_read, hfind, hmem]
      | true =>
        cases hdup : db.message_reads.any (fun r => r.message_id == m && r.user_id == u) with
        | false => simp [ReadService.mark_read, hfind, hmem, hdup]
        | true => simp [ReadService.mark_read, hfind, hmem, hdup]
  · cases hfind : db.messages.find? (fun x => x.id == m) with
    | none => simp [ReadService.mark_read, hfind]
    | some msg =>
      cases hmem : is_user_in_chat db u msg.chat_id with
      | false => simp [ReadService.mark_read, hfind, hmem]
      | true =>
        cases hdup : db.message_reads.any (fun r => r.message_id == m && r.user_id == u) with
        | false => simp [ReadService.mark_read, hfind, hmem, hdup]
        | true => simp [ReadService.mark_read, hfind, hmem, hdup]
  · cases hfind : db.messages.find? (fun x => x.id == m) with
    | none => simp [ReadService.mark_read, hfind]
    | some msg =>
      cases hmem : is_user_in_chat db u msg.chat_id with
      | false => simp [ReadService.mark_read, hfind, hmem]
      | true =>
        cases hdup : db.message_reads.any (fun r => r.message_id == m && r.user_id == u) with
        | false => simp [ReadService.mark_read, hfind, hmem, hdup]
        | true => simp [ReadService.mark_read, hfind, hmem, hdup]
  · cases hfind : db.messages.find? (fun x => x.id == m) with
    | none => simp [ReadService.mark_read, hfind]
    | some msg =>
      cases hmem : is_user_in_chat db u msg.chat_id with
      | false => simp [ReadService.mark_read, hfind, hmem]
      | true =>
        cases hdup : db.message_reads.any (fun r => r.message_id == m && r.user_id == u) with
        | true => simp [ReadService.mark_read, hfind, hmem, hdup]
        | false =>
          have h1 : ReadService.mark_read db m u t₁ =
              ({ db with message_reads :=
                  { message_id := m, user_id := u, read_at := t₁ } :: db.message_reads },
               true) := by
            simp [ReadService.mark_read, hfind, hmem, hdup]
          rw [h1]
          have hmem2 : is_user_in_chat
              { db with message_reads :=
                  ({ message_id := m, user_id := u, read_at := t₁ } : MessageReadRow)
                    :: db.message_reads } u msg.chat_id = true := hmem
          simp [ReadService.mark_read, hfind, hmem2]
  · cases hdup : db.message_reads.any (fun r => r.message_id == m && r.user_id == u) with
    | true => simp [MessageService.mark_as_read, hdup]
    | false =>
      have h1 : MessageService.mark_as_read db m u t₁ =
          ({ db with
              message_reads :=
                { message_id := m, user_id := u, read_at := t₁ } :: db.message_reads,
              messages := db.messages.map fun x =>
                if x.id == m then { x with read_at := some t₁ } else x },
           true) := by
        simp [MessageService.mark_as_read, hdup]
      rw [h1]
      simp [MessageService.mark_as_read]

/-- C7 counterexample: the claim says a connection attempt is accepted only
when the token's type claim equals access, a wrong-type (refresh) token being
rejected with close code 1008; on the code a validly signed, unexpired token
with type = refresh and sub = 1 is accepted for chat 10 and the connection
proceeds for user 1 — the type claim is never examined. -/
theorem c7_refresh_token_accepted_counterexample :
    websocket_endpoint_auth wsAuthDb 10 (some refreshTok) =
      WSAuthOutcome.connected 1 ∧
    refreshTok.claims.lookup "type" = some "refresh" := by
  decide

/-- C7 amended: the websocket gate accepts a connection (for uid) exactly
when a token is presented whose signature verifies and which is unexpired,
whose sub claim parses to the id of an existing user, that user being a
participant of the chat — with no check of the type claim whatever, so
refresh tokens are accepted too; every other attempt ends in close1008, the
only other outcome, with nothing registered. -/
theorem c7_ws_auth_amended (db : DB) (chat_id : Nat) (token : Option TokenT)
    (uid : Nat) :
    websocket_endpoint_auth db chat_id token = WSAuthOutcome.connected uid ↔
      ∃ t, token = some t ∧ t.sig_valid = true ∧ t.expired = false ∧
        ∃ s, t.claims.lookup "sub" = some s ∧ pyToInt s = Except.ok uid ∧
          (∃ w, db.users.find? (fun x => x.id == uid) = some w) ∧
          is_user_in_chat db uid chat_id = true := by
  cases token with
  | none => simp [websocket_endpoint_auth]
  | some t =>
    cases hsig : t.sig_valid with
    | false =>
      have hval : websocket_endpoint_auth db chat_id (some t) = WSAuthOutcome.close1008 := by
        simp [websocket_endpoint_auth, get_current_user, jwtDecode, hsig]
      rw [hval]
      simp [hsig]
    | true =>
      cases hexp : t.expired with
      | true =>
        have hval : websocket_endpoint_auth db chat_id (some t) = WSAuthOutcome.close1008 := by
          simp [websocket_endpoint_auth, get_current_user, jwtDecode, hsig, hexp]
        rw [hval]
        simp [hexp]
      | false =>
        cases hsub : t.claims.lookup "sub" with
        | none =>
          have hval : websocket_endpoint_auth db chat_id (some t) = WSAuthOutcome.close1008 := by
            simp [websocket_endpoint_auth, get_current_user, jwtDecode, hsig, hexp, hsub]
          rw [hval]
          constructor
          · intro h
            simp at h
          · rintro ⟨t2, ht2, _, _, s2, hs2, _, _, _⟩
            injection ht2 with ht2
            subst ht2
            rw [hsub] at hs2
            cases hs2
        | some s =>
          cases hnat : pyToInt s with
          | error e =>
            have hval : websocket_endpoint_auth db chat_id (some t) = WSAuthOutcome.close1008 := by
              simp [websocket_endpoint_auth, get_current_user, jwtDecode, hsig, hexp, hsub, hnat]
            rw [hval]
            constructor
            · intro h
              simp at h
            · rintro ⟨t2, ht2, _, _, s2, hs2, hn2, _, _⟩
              injection ht2 with ht2
              subst ht2
              rw [hsub] at hs2
              injection hs2 with hs2
              subst hs2
              rw [hnat] at hn2
              cases hn2
          | ok n =>
            cases hfind : db.users.find? (fun x => x.id == n) with
            | none =>
              have hval : websocket_endpoint_auth db chat_id (some t) = WSAuthOutcome.close1008 := by
                simp [websocket_endpoint_auth, get_current_user, jwtDecode, hsig, hexp, hsub, hnat, hfind]
              rw [hval]
              constructor
              · intro h
                simp at h
              · rintro ⟨t2, ht2, _, _, s2, hs2, hn2, ⟨w, hw⟩, _⟩
                injection ht2 with ht2
                subst ht2
                rw [hsub] at hs2
                injection hs2 with hs2
                subst hs2
                rw [hnat] at hn2
                injection hn2 with hn2
                subst hn2
                rw [hfind] at hw
                cases hw
            | some w =>
              have hw : w.id = n := by
                have := List.find?_some hfind
                simpa using this
              cases hmem : is_user_in_chat db n chat_id with
              | false =>
                have hval : websocket_endpoint_auth db chat_id (some t) = WSAuthOutcome.close1008 := by
                  simp [websocket_endpoint_auth, get_current_user, jwtDecode, hsig, hexp, hsub,
                    hnat, hfind, hw, hmem]
                rw [hval]
                constructor
                · intro h
                  simp at h
                · rintro ⟨t2, ht2, _, _, s2, hs2, hn2, _, hmem2⟩
                  injection ht2 with ht2
                  subst ht2
                  rw [hsub] at hs2
                  injection hs2 with hs2
                  subst hs2
                  rw [hnat] at hn2
                  injection hn2 with hn2
                  subst hn2
                  rw [hmem] at hmem2
                  cases hmem2
              | true =>
                have hval : websocket_endpoint_auth db chat_id (some t) =
                    WSAuthOutcome.connected n := by
                  simp [websocket_endpoint_auth, get_current_user, jwtDecode, hsig, hexp, hsub,
                    hnat, hfind, hw, hmem]
                rw [hval]
                constructor
                · intro h
                  injection h with h
                  subst h
                  exact ⟨t, rfl, hsig, hexp, s, hsub, hnat, ⟨w, hfind⟩, hmem⟩
                · rintro ⟨t2, ht2, _, _, s2, hs2, hn2, _, _⟩
                  injection ht2 with ht2
                  subst ht2
                  rw [hsub] at hs2
                  injection hs2 with hs2
                  subst hs2
                  rw [hnat] at hn2
                  injection hn2 with hn2
                  subst hn2
                  rfl

/-- The is_delete field required by MessageResponse is not an attribute of
the Message model. -/
theorem is_delete_not_a_message_attr : messageModelAttrs.contains "is_delete" = false := by
  decide

/-- MessageResponse validation fails on every Message object, because the
schema requires is_delete and the model only has is_deleted. -/
theorem model_validate_always_fails (m : MessageRow) :
    model_validate_MessageResponse m =
      Except.error (PyErr.validationError "MessageResponse") := by
  unfold model_validate_MessageResponse
  rw [is_delete_not_a_message_attr]
  simp

/-- One receive-loop iteration never emits a rate_limited error frame and
never publishes to the bus; it either breaks having inserted exactly one
message row, or continues with the messages table untouched. -/
theorem websocket_receive_step_shape (cid uid : Nat) (db : DB) (t : Nat)
    (f : ClientFrame) :
    (∀ e ∈ (websocket_receive_step cid uid db t f).2.1,
      e ≠ LoopEffect.errorFrame "rate_limited" ∧ ∀ c, e ≠ LoopEffect.busPublish c) ∧
    (((websocket_receive_step cid uid db t f).2.2 = true ∧
        (websocket_receive_step cid uid db t f).1.messages.length =
          db.messages.length + 1) ∨
      ((websocket_receive_step cid uid db t f).2.2 = false ∧
        (websocket_receive_step cid uid db t f).1.messages = db.messages)) := by
  cases f with
  | invalidJson =>
    refine ⟨?_, Or.inr ⟨rfl, rfl⟩⟩
    intro e he
    simp [websocket_receive_step] at he
    subst he
    refine ⟨by decide, fun c => by simp⟩
  | frame ty content =>
    by_cases hty : ty = "message"
    · subst hty
      by_cases hc : pyStrip content = ""
      · refine ⟨?_, Or.inr ⟨?_, ?_⟩⟩ <;> simp [websocket_receive_step, hc]
      · constructor
        · intro e he
          simp [websocket_receive_step, hc, model_validate_always_fails] at he
          rcases he with he | he <;> subst he
          · exact ⟨by decide, fun c => by simp⟩
          · exact ⟨by simp, fun c => by simp⟩
        · refine Or.inl ⟨?_, ?_⟩ <;>
            simp [websocket_receive_step, hc, model_validate_always_fails]
    · refine ⟨?_, Or.inr ⟨?_, ?_⟩⟩ <;> simp [websocket_receive_step, hty]

/-- C1 counterexample: the claim says the first five message frames inside a
10-second window are accepted and the sixth draws an error frame with message
rate_limited and is not persisted.  Feeding six message frames sent at
seconds 0..5 to the loop, no rate_limited error frame is ever emitted and
exactly one message row is persisted (the first frame is persisted and the
connection is then closed with 1011 by the serialization failure), not five. -/
theorem c1_rate_limit_counterexample :
    (websocket_receive_loop 10 1 rateDb sixFrames).1.messages.length = 1 ∧
    LoopEffect.errorFrame "rate_limited" ∉ (websocket_receive_loop 10 1 rateDb sixFrames).2 := by
  decide

/-- C1 amended: the endpoint applies no rate limiting at all — no trace of
frames, whatever its timing, ever draws a rate_limited error frame — and a
connection persists at most one message row in total: processing the first
message frame with non-empty trimmed content inserts it and then breaks the
loop (the response serialization always fails, answered by an internal-error
frame and close 1011). -/
theorem c1_no_rate_limiting (db : DB) (chat_id user_id : Nat)
    (frames : List (Nat × ClientFrame)) :
    LoopEffect.errorFrame "rate_limited" ∉ (websocket_receive_loop chat_id user_id db frames).2 ∧
    (websocket_receive_loop chat_id user_id db frames).1.messages.length ≤
      db.messages.length + 1 := by
  induction frames generalizing db with
  | nil => exact ⟨by simp [websocket_receive_loop], Nat.le_succ_of_le (Nat.le_refl _)⟩
  | cons tf rest ih =>
    obtain ⟨t, f⟩ := tf
    obtain ⟨hstep, hcases⟩ := websocket_receive_step_shape chat_id user_id db t f
    cases hstop : (websocket_receive_step chat_id user_id db t f).2.2 with
    | true =>
      rcases hcases with ⟨_, hlen⟩ | ⟨hfalse, _⟩
      · constructor
        · intro hmem
          simp only [websocket_receive_loop, hstop, if_true] at hmem
          exact (hstep _ hmem).1 rfl
        · simp only [websocket_receive_loop, hstop, if_true]
          omega
      · rw [hstop] at hfalse
        cases hfalse
    | false =>
      rcases hcases with ⟨htrue, _⟩ | ⟨_, hmsgs⟩
      · rw [hstop] at htrue
        cases htrue
      · obtain ⟨ih1, ih2⟩ := ih (websocket_receive_step chat_id user_id db t f).1
        constructor
        · intro hmem
          simp only [websocket_receive_loop, hstop, Bool.false_eq_true, if_false,
            List.mem_append] at hmem
          rcases hmem with hmem | hmem
          · exact (hstep _ hmem).1 rfl
          · exact ih1 hmem
        · simp only [websocket_receive_loop, hstop, Bool.false_eq_true, if_false]
          rw [hmsgs] at ih2
          exact ih2

/-- C5 counterexample: the claim says the delivery engine skips the member
whose uid equals the sender_id of the event, so a sender's own socket never
receives a copy of its own message.  On the code, the pub/sub handler for an
event sent by user 1 delivers the event to socket 7 of user 1 — the sender
receives its own message. -/
theorem c5_sender_echo_counterexample :
    echoEv.sender_id = 1 ∧
    RedisManager.handle_pubsub_message echoRs echoSt echoEv =
      [PubSubEffect.sendSocket 7 1 100] := by
  decide

/-- The effects of the pub/sub member loop: exactly the sockets of the first
subscriber (in iteration order) that is online — the exception raised right
after that delivery attempt ends the loop, so later subscribers receive
nothing. -/
theorem pubsubLoop_effects (rs : RedisState) (st : WebSocketManagerState)
    (mid : Nat) :
    ∀ l : List Nat,
      (RedisManager.pubsubLoop rs st mid l).1 =
        (match l.find? (fun u => rs.online.contains u) with
         | none => []
         | some u => (WebSocketManager.send_to_user st u).1.map
             (fun ws => PubSubEffect.sendSocket ws u mid))
  | [] => rfl
  | uid :: rest => by
    cases hon : rs.online.contains uid with
    | false =>
      rw [show List.find? (fun u => rs.online.contains u) (uid :: rest) =
            List.find? (fun u => rs.online.contains u) rest from
          List.find?_cons_of_neg rest (by simpa using hon)]
      simp only [RedisManager.pubsubLoop, hon, Bool.false_eq_true, if_false]
      exact pubsubLoop_effects rs st mid rest
    | true =>
      rw [show List.find? (fun u => rs.online.contains u) (uid :: rest) = some uid from
          List.find?_cons_of_pos rest (by simpa using hon)]
      simp only [RedisManager.pubsubLoop, hon, if_true]
      cases hsu : WebSocketManager.send_to_user st uid with
      | mk conns res =>
        cases res with
        | error e =>
          have hc : conns = [] := by
            unfold WebSocketManager.send_to_user at hsu
            cases hlook : st.active_connections.lookup uid <;> rw [hlook] at hsu
            · injection hsu with h1 h2
              exact h1.symm
            · injection hsu with h1 h2
              exact Except.noConfusion h2
          simp [hsu, hc]
        | ok r => simp [hsu]

/-- C5 amended: the inbound message handler performs no bus publish at all
(its only fan-out is the local manager.send_to_other call, which the
always-failing response serialization keeps unreachable), and the pub/sub
delivery path does not skip the sender: it delivers to the sockets of the
first online subscriber in iteration order — the sender included, as the
counterexample shows — after which an exception swallowed by the blanket
handler ends the fan-out, so all later subscribers receive nothing from this
arrival. -/
theorem c5_fan_out_amended (db : DB) (chat_id user_id : Nat)
    (frames : List (Nat × ClientFrame)) (rs : RedisState)
    (st : WebSocketManagerState) (ev : PubSubEvent) (c : Nat) :
    LoopEffect.busPublish c ∉ (websocket_receive_loop chat_id user_id db frames).2 ∧
    RedisManager.handle_pubsub_message rs st ev =
      (match (subscribersOf rs ev.chat_id).find? (fun u => rs.online.contains u) with
       | none => []
       | some u => (WebSocketManager.send_to_user st u).1.map
           (fun ws => PubSubEffect.sendSocket ws u ev.message_id)) := by
  constructor
  · induction frames generalizing db with
    | nil => simp [websocket_receive_loop]
    | cons tf rest ih =>
      obtain ⟨t, f⟩ := tf
      obtain ⟨hstep, _⟩ := websocket_receive_step_shape chat_id user_id db t f
      intro hmem
      cases hstop : (websocket_receive_step chat_id user_id db t f).2.2 with
      | true =>
        simp only [websocket_receive_loop, hstop, if_true] at hmem
        exact (hstep _ hmem).2 c rfl
      | false =>
        simp only [websocket_receive_loop, hstop, Bool.false_eq_true, if_false,
          List.mem_append] at hmem
        rcases hmem with hmem | hmem
        · exact (hstep _ hmem).2 c rfl
        · exact ih (websocket_receive_step chat_id user_id db t f).1 hmem
  · unfold RedisManager.handle_pubsub_message
    cases hemp : (subscribersOf rs ev.chat_id).isEmpty with
    | true =>
      have : subscribersOf rs ev.chat_id = [] := List.isEmpty_iff.mp hemp
      rw [this]
      simp
    | false =>
      simp only [hemp, Bool.false_eq_true, if_false]
      rw [← pubsubLoop_effects rs st ev.message_id (subscribersOf rs ev.chat_id)]
      cases hloop : RedisManager.pubsubLoop rs st ev.message_id (subscribersOf rs ev.chat_id) with
      | mk effs res =>
        cases res with
        | error e => simp
        | ok n =>
          cases hn : n with
          | zero => simp
          | succ k => simp [pyGetAttr]

/-- Reading a queue after writing one: the written key sees the new value,
every other key is untouched. -/
theorem queueOf_setQueue :
    ∀ (qs : List (Nat × List EventPayload)) (uid : Nat) (q : List EventPayload)
      (v : Nat),
      queueOf (setQueue qs uid q) v = if v = uid then q else queueOf qs v
  | [], uid, q, v => by
    by_cases h : v = uid
    · subst h
      simp [setQueue, queueOf, List.lookup]
    · have hb : (v == uid) = false := by simpa using h
      simp [setQueue, queueOf, List.lookup, hb, h]
  | (k, w) :: rest, uid, q, v => by
    by_cases hk : k = uid
    · subst hk
      by_cases hv : v = k
      · subst hv
        simp [setQueue, queueOf, List.lookup]
      · have hb : (v == k) = false := by simpa using hv
        simp [setQueue, queueOf, List.lookup, hb, hv]
    · have hkb : (k == uid) = false := by simpa using hk
      by_cases hv : v = k
      · subst hv
        have hvu : ¬v = uid := hk
        simp [setQueue, queueOf, List.lookup, hkb, hvu]
      · have hvb : (v == k) = false := by simpa using hv
        have hrec := queueOf_setQueue rest uid q v
        simp only [queueOf] at hrec
        simp [setQueue, queueOf, List.lookup, hkb, hvb, hrec]

/-- The consumer member loop updates exactly the offline queues of the
non-sender members that are offline, each by one store_offline_message,
provided the member list has no duplicates and every online non-sender member
has a local socket entry (otherwise a KeyError aborts the loop early). -/
theorem consumerLoop_queues (online : List Nat) (st : WebSocketManagerState)
    (sender_id : Nat) (payload : EventPayload) (u : Nat) :
    ∀ (l : List Nat) (qs : List (Nat × List EventPayload)),
      l.Nodup →
      (∀ v ∈ l, v ≠ sender_id → online.contains v = true →
          (st.active_connections.lookup v).isSome = true) →
      queueOf (MessageCreatedConsumer.consumerLoop online st sender_id payload l qs).1 u =
        (if u ∈ l ∧ u ≠ sender_id ∧ online.contains u = false
         then store_offline_message (queueOf qs u) payload
         else queueOf qs u)
  | [], qs => by
    intro _ _
    simp [MessageCreatedConsumer.consumerLoop]
  | v :: rest, qs => by
    intro hnodup hconn
    obtain ⟨hvrest, hnodup2⟩ := List.nodup_cons.mp hnodup
    have hconn2 : ∀ w ∈ rest, w ≠ sender_id → online.contains w = true →
        (st.active_connections.lookup w).isSome = true :=
      fun w hw => hconn w (List.mem_cons_of_mem v hw)
    by_cases hsend : v = sender_id
    · have hsb : (v == sender_id) = true := by simpa using hsend
      have hstep : MessageCreatedConsumer.consumerLoop online st sender_id payload
          (v :: rest) qs =
          MessageCreatedConsumer.consumerLoop online st sender_id payload rest qs := by
        simp [MessageCreatedConsumer.consumerLoop, hsb]
      rw [hstep, consumerLoop_queues online st sender_id payload u rest qs hnodup2 hconn2]
      by_cases hu : u = v
      · subst hu
        have h1 : ¬(u ∈ u :: rest ∧ u ≠ sender_id ∧ online.contains u = false) :=
          fun hc => hc.2.1 hsend
        have h2 : ¬(u ∈ rest ∧ u ≠ sender_id ∧ online.contains u = false) :=
          fun hc => hc.2.1 hsend
        rw [if_neg h2, if_neg h1]
      · have hm : (u ∈ rest) = (u ∈ v :: rest) := by
          simp [List.mem_cons, hu]
        simp only [hm]
    · have hsb : (v == sender_id) = false := by simpa using hsend
      cases hon : online.contains v with
      | true =>
        have honm : v ∈ online := by simpa using hon
        have hsome := hconn v (List.mem_cons_self v rest) hsend hon
        obtain ⟨conns, hlook⟩ := Option.isSome_iff_exists.mp hsome
        have hsu : WebSocketManager.send_to_user st v = (conns, Except.ok ()) := by
          unfold WebSocketManager.send_to_user
          rw [hlook]
        have hstep : (MessageCreatedConsumer.consumerLoop online st sender_id payload
            (v :: rest) qs).1 =
            (MessageCreatedConsumer.consumerLoop online st sender_id payload rest qs).1 := by
          simp [MessageCreatedConsumer.consumerLoop, hsb, hon, honm, hsu]
        rw [hstep, consumerLoop_queues online st sender_id payload u rest qs hnodup2 hconn2]
        by_cases hu : u = v
        · subst hu
          have h1 : ¬(u ∈ u :: rest ∧ u ≠ sender_id ∧ online.contains u = false) := by
            rintro ⟨_, _, hoff⟩
            rw [hon] at hoff
            cases hoff
          have h2 : ¬(u ∈ rest ∧ u ≠ sender_id ∧ online.contains u = false) := by
            rintro ⟨_, _, hoff⟩
            rw [hon] at hoff
            cases hoff
          rw [if_neg h2, if_neg h1]
        · have hm : (u ∈ rest) = (u ∈ v :: rest) := by
            simp [List.mem_cons, hu]
          simp only [hm]
      | false =>
        have honm : v ∉ online := by simpa using hon
        have hstep : MessageCreatedConsumer.consumerLoop online st sender_id payload
            (v :: rest) qs =
            MessageCreatedConsumer.consumerLoop online st sender_id payload rest
              (setQueue qs v (store_offline_message (queueOf qs v) payload)) := by
          simp [MessageCreatedConsumer.consumerLoop, hsb, hon, honm]
        rw [hstep, consumerLoop_queues online st sender_id payload u rest _ hnodup2 hconn2]
        by_cases hu : u = v
        · subst hu
          have h2 : ¬(u ∈ rest ∧ u ≠ sender_id ∧ online.contains u = false) :=
            fun hc => hvrest hc.1
          rw [if_neg h2, queueOf_setQueue, if_pos rfl]
          have h1 : u ∈ u :: rest ∧ u ≠ sender_id ∧ online.contains u = false :=
            ⟨List.mem_cons_self u rest, hsend, hon⟩
          rw [if_pos h1]
        · simp only [queueOf_setQueue, if_neg hu]
          have hm : (u ∈ rest) = (u ∈ v :: rest) := by
            simp [List.mem_cons, hu]
          simp only [hm]

/-- C8 counterexample: the claim says the payload is stored to the offline
queue of every chat member without a locally connected socket.  User 1 is a
member of chat 10, has no locally connected socket and is not online, yet
after the consumer handles the event its offline queue is still empty — the
loop skips the sender before the socket check, so an offline sender is never
enqueued. -/
theorem c8_offline_sender_counterexample :
    queueOf (MessageCreatedConsumer.handle offlineDb [] emptySt [] offlinePayload).1 1 = [] ∧
    (MessageCreatedConsumer.handle offlineDb [] emptySt [] offlinePayload).2.1 = [] := by
  decide

/-- C8 amended (store_offline_message modelled from the spec, the method
being absent from the snapshot): the consumer stores the payload to the
offline queue of every chat member other than the sender that the session
store reports offline — online members get socket sends instead, and an
online member with no local socket aborts the loop with a KeyError, so the
characterization assumes every online non-sender member has a socket entry —
and the queue update is right-push followed by a trim to the newest 300
entries, so a queue never exceeds 300 payloads and, at the cap, the entry
dropped is the oldest. -/
theorem c8_offline_queue_amended (db : DB) (online : List Nat)
    (st : WebSocketManagerState) (qs : List (Nat × List EventPayload))
    (payload : EventPayload) (u : Nat) (q q2 : List EventPayload) (p : EventPayload)
    (hnodup : (get_chat_members db payload.chat_id).Nodup)
    (hconn : ∀ v ∈ get_chat_members db payload.chat_id,
        v ≠ payload.sender_id → online.contains v = true →
        (st.active_connections.lookup v).isSome = true)
    (hcap : q.length = 300) :
    queueOf (MessageCreatedConsumer.handle db online st qs payload).1 u =
      (if u ∈ get_chat_members db payload.chat_id ∧ u ≠ payload.sender_id ∧
          online.contains u = false
       then store_offline_message (queueOf qs u) payload
       else queueOf qs u) ∧
    (store_offline_message q2 p).length ≤ 300 ∧
    store_offline_message q p = q.drop 1 ++ [p] := by
  refine ⟨?_, ?_, ?_⟩
  · exact consumerLoop_queues online st payload.sender_id payload u
      (get_chat_members db payload.chat_id) qs hnodup hconn
  · unfold store_offline_message
    rw [List.length_drop, List.length_append]
    simp
    omega
  · cases q with
    | nil => simp at hcap
    | cons a q0 =>
      have hlen : (a :: q0 ++ [p]).length - 300 = 1 := by
        simp at hcap ⊢
        omega
      show List.drop ((a :: q0 ++ [p]).length - 300) (a :: q0 ++ [p]) =
        List.drop 1 (a :: q0) ++ [p]
      rw [hlen]
      simp

set_option maxRecDepth 4000 in
/-- Witness for the C8 amended theorem at a concrete instance: chat 10 with
members 1 (the sender), 2 (online with socket 9) and 3 (offline, empty
queue), and the cap facts at a queue of exactly 300 entries. -/
theorem c8_offline_queue_amended_witness :
    (get_chat_members capDb offlinePayload.chat_id).Nodup ∧
    (∀ v ∈ get_chat_members capDb offlinePayload.chat_id,
        v ≠ offlinePayload.sender_id → ([2] : List Nat).contains v = true →
        (capSt.active_connections.lookup v).isSome = true) ∧
    capQ.length = 300 ∧
    (queueOf (MessageCreatedConsumer.handle capDb [2] capSt [] offlinePayload).1 3 =
      (if 3 ∈ get_chat_members capDb offlinePayload.chat_id ∧
          3 ≠ offlinePayload.sender_id ∧ ([2] : List Nat).contains 3 = false
       then store_offline_message (queueOf [] 3) offlinePayload
       else queueOf [] 3) ∧
     (store_offline_message [] offlinePayload).length ≤ 300 ∧
     store_offline_message capQ offlinePayload = capQ.drop 1 ++ [offlinePayload]) :=
  ⟨by decide, by decide, by decide,
   c8_offline_queue_amended capDb [2] capSt [] offlinePayload 3 capQ [] offlinePayload
     (by decide) (by decide) (by decide)⟩

end Messenger
